import Mathlib

/-!
Shallow embedding of the btrfs-backup snapshot-synchronization program
(files `backup.go` and `btrfs_backup.go`).

Driver and network calls are modelled by oracles (`Driver`, `Network`)
recording the result each underlying call would return; the embedded
`validateConfig` and `process` functions return the ordered trace of
driver/network operations they perform together with the Go function's
result value.
-/

namespace BtrfsBackup

/-- Go `error` values that appear in the embedded code: the
`fmt.Errorf("Invalid port number: %d", ...)` value built in
`validateConfig`, the `ChainDivergence` failure of the spec's
snapshot inventory, and opaque errors produced by drivers or the
network, identified by their message. -/
inductive GoError
  | invalidPort (p : Int)
  | chainDivergence
  | msg (s : String)
  deriving DecidableEq, Repr

/-- The `config.Config` structure built in `process` (backup.go line 67)
from the parsed command-line flags. -/
structure Config where
  subvolumePath : String
  subvolumeDirectoryPath : String
  server : Bool
  destinationHost : String
  destinationPort : Int
  deriving DecidableEq, Repr

/-- One call into the btrfs subvolume driver. -/
inductive DriverOp
  | prepare
  | subvolumes
  | snapshot
  | sendSubvolume (s : String)
  deriving DecidableEq, Repr

/-- One observable operation of a run: a driver call, or a network
operation (`net.Listen`, `rpc.DialHTTP`, `client.Call`). -/
inductive Event
  | driver (op : DriverOp)
  | listen (addr : String)
  | dial (addr : String)
  | rpcCall (method : String)
  deriving DecidableEq, Repr

/-- Oracle for the btrfs driver: the results the underlying
`Prepare`, `Subvolumes`, `Snapshot` and `SendSubvolume` calls return
in this run.  `Subvolumes` returns a Go slice (which may be `nil`,
modelled by `none`) together with an error; only the error of
`Snapshot` is ever inspected by the code. -/
structure Driver where
  prepareResult : Option GoError
  subvolumesResult : Option (List String) × Option GoError
  snapshotResult : Option GoError
  sendResult : String → Option GoError

/-- Oracle for the network: results of `net.Listen`, `rpc.DialHTTP`
and of the `BtrfsRPC.SnapshotsNeeded` RPC call, whose reply is the
list the server reports. -/
structure Network where
  listenErr : Option GoError
  dialErr : Option GoError
  callErr : Option GoError
  reply : List String

/-- How the embedded `process` terminates: a normal `return` with a Go
error value, a `log.Fatal` (which exits the process immediately), or
blocking forever in `http.Serve` (server mode). -/
inductive ProcResult
  | normal (e : Option GoError)
  | fatal (e : GoError)
  | serving
  deriving DecidableEq, Repr

/-- Go's conversion `string(i)` for an `int` `i`: the UTF-8 string of
the single rune with code point `i`, or `"�"` when `i` is not a
valid code point.  Used by backup.go line 96 to build the dial
address. -/
def goStringOfInt (n : Int) : String :=
  if 0 ≤ n ∧ n < 1114112 ∧ ¬ (55296 ≤ n ∧ n ≤ 57343) then
    String.mk [Char.ofNat n.toNat]
  else
    String.mk [Char.ofNat 65533]

/-- The address literal the server listens on (backup.go line 88):
hard-coded, independent of the configured destination port. -/
def serverListenAddr : String := ":1234"

/-- Embedding of `validateConfig` (backup.go lines 123-152): calls
`driver.Prepare`, then checks the port range, then `driver.Subvolumes`
(whose error is returned only when the returned slice is also `nil`),
then `driver.Snapshot`.  Returns the trace of driver calls made and
the Go error returned. -/
def validateConfig (backupConfig : Config) (driver : Driver) :
    List DriverOp × Option GoError :=
  match driver.prepareResult with
  | some e => ([DriverOp.prepare], some e)
  | none =>
    if backupConfig.destinationPort > 65535 ∨ backupConfig.destinationPort < 1024 then
      ([DriverOp.prepare], some (GoError.invalidPort backupConfig.destinationPort))
    else
      let subvols := driver.subvolumesResult.1
      let err := driver.subvolumesResult.2
      if err.isSome ∧ subvols = none then
        ([DriverOp.prepare, DriverOp.subvolumes], err)
      else
        match driver.snapshotResult with
        | some e2 => ([DriverOp.prepare, DriverOp.subvolumes, DriverOp.snapshot], some e2)
        | none => ([DriverOp.prepare, DriverOp.subvolumes, DriverOp.snapshot], none)

/-- Embedding of `process` (backup.go lines 49-120): validate the
config, then either serve (server mode: `net.Listen` on the
hard-coded `":1234"`, `http.Serve`) or act as client: `rpc.DialHTTP`
to `host + ":" + string(port)`, enumerate subvolumes, call
`BtrfsRPC.SnapshotsNeeded`, then `SendSubvolume` every enumerated
subvolume — the RPC reply and each send's result are ignored, exactly
as in the source. -/
def process (backupConfig : Config) (driver : Driver) (net : Network) :
    List Event × ProcResult :=
  match validateConfig backupConfig driver with
  | (vtrace, verr) =>
    let evs := vtrace.map Event.driver
    match verr with
    | some e => (evs, ProcResult.normal (some e))
    | none =>
      if backupConfig.server then
        match net.listenErr with
        | some e => (evs ++ [Event.listen serverListenAddr], ProcResult.fatal e)
        | none => (evs ++ [Event.listen serverListenAddr], ProcResult.serving)
      else
        let addr := backupConfig.destinationHost ++ ":" ++
          goStringOfInt backupConfig.destinationPort
        match net.dialErr with
        | some e => (evs ++ [Event.dial addr], ProcResult.fatal e)
        | none =>
          let evs := evs ++ [Event.dial addr, Event.driver DriverOp.subvolumes]
          let subvols := driver.subvolumesResult.1.getD []
          let evs := evs ++ [Event.rpcCall "BtrfsRPC.SnapshotsNeeded"]
          match net.callErr with
          | some e => (evs, ProcResult.fatal e)
          | none =>
            (evs ++ subvols.map (fun s => Event.driver (DriverOp.sendSubvolume s)),
             ProcResult.normal none)

/-- The subvolumes the client actually transfers in a run: the
`SendSubvolume` driver calls appearing in its trace, in order. -/
def sentSubvolumes (trace : List Event) : List String :=
  trace.filterMap (fun e =>
    match e with
    | Event.driver (DriverOp.sendSubvolume s) => some s
    | _ => none)

/-- Embedding of `realMain` (backup.go lines 24-43): returns exit
status 1 when `process` returned a non-nil error, 0 otherwise. -/
def realMain (processResult : Option GoError) : Int :=
  if processResult.isSome then 1 else 0

namespace Legacy

/-- Embedding of `realMain` (btrfs_backup.go lines 18-36): logs the
error from `process` when it is non-nil, but always returns exit
status 0. -/
def realMain (_processResult : Option GoError) : Int := 0

end Legacy

/-- Modelled from the spec: `ComputeMissing` of the Snapshot Inventory
(spec section 4.2) is absent from the source files (the client in
`process` never computes a missing set).  Per the spec: if the remote
chain is not a prefix of the local chain the inventory fails fast with
`ChainDivergence`; otherwise it returns the local snapshots whose
identifier is absent from the remote chain, preserving local order. -/
def ComputeMissing (localChain remoteChain : List String) :
    Except GoError (List String) :=
  if remoteChain.isPrefixOf localChain then
    Except.ok (localChain.filter (fun s => !(remoteChain.contains s)))
  else
    Except.error GoError.chainDivergence

/-- A client-mode configuration with the out-of-range port 80. -/
def cfg80 : Config :=
  { subvolumePath := "/", subvolumeDirectoryPath := "snaps",
    server := false, destinationHost := "backup.example", destinationPort := 80 }

/-- A server-mode configuration with the in-range port 4321. -/
def cfgServer4321 : Config :=
  { subvolumePath := "/", subvolumeDirectoryPath := "snaps",
    server := true, destinationHost := "backup.example", destinationPort := 4321 }

/-- A client-mode configuration with the in-range port 4321. -/
def cfgClient4321 : Config :=
  { subvolumePath := "/", subvolumeDirectoryPath := "snaps",
    server := false, destinationHost := "backup.example", destinationPort := 4321 }

/-- A driver whose calls all succeed; the local chain is `[snap1]`. -/
def drvOK : Driver :=
  { prepareResult := none, subvolumesResult := (some ["snap1"], none),
    snapshotResult := none, sendResult := fun _ => none }

/-- A network on which every operation succeeds and the server reports
nothing present. -/
def netOK : Network :=
  { listenErr := none, dialErr := none, callErr := none, reply := [] }

/-- A network on which every operation succeeds and the server reports
`snap1` as already present. -/
def netReplySnap1 : Network :=
  { listenErr := none, dialErr := none, callErr := none, reply := ["snap1"] }

/-- A driver with local chain `[snap1, snap2, snap3]` whose
`SendSubvolume` fails on `snap2` and succeeds elsewhere. -/
def drvFailSnap2 : Driver :=
  { prepareResult := none,
    subvolumesResult := (some ["snap1", "snap2", "snap3"], none),
    snapshotResult := none,
    sendResult := fun s => if s = "snap2" then some (GoError.msg "send failed") else none }

/-- A driver whose `Prepare` call fails. -/
def drvPrepFail : Driver :=
  { prepareResult := some (GoError.msg "prepare failed"),
    subvolumesResult := (some ["snap1"], none),
    snapshotResult := none, sendResult := fun _ => none }

/-- A driver whose `Subvolumes` call fails but still returns a
non-nil (partial) list. -/
def drvPartialEnum : Driver :=
  { prepareResult := none,
    subvolumesResult := (some ["snap1"], some (GoError.msg "enumeration failed")),
    snapshotResult := none, sendResult := fun _ => none }

/-- `List.isPrefixOf` on strings holds exactly when the second list
extends the first by some suffix. -/
theorem isPrefixOf_iff_exists (R : List String) :
    ∀ L : List String, R.isPrefixOf L = true ↔ ∃ t, R ++ t = L := by
  induction R with
  | nil =>
    intro L
    simp [List.isPrefixOf]
  | cons a R ih =>
    intro L
    cases L with
    | nil => simp [List.isPrefixOf]
    | cons b L =>
      simp [List.isPrefixOf, ih L]

/-- Claim C2: for all chains `L` and `R` such that `R` is a prefix of
`L` in identifier and order (`L = R ++ t`), `ComputeMissing L R`
returns exactly the suffix `L[len(R):]`, preserving `L`'s order.
(The chain hypothesis that identifiers are unique appears as
`L.Nodup`; the spec's identifiers are monotonically ordered.) -/
theorem C2_computeMissing_suffix (L R : List String)
    (hnd : L.Nodup) (hpre : ∃ t, R ++ t = L) :
    ComputeMissing L R = Except.ok (L.drop R.length) := by
  obtain ⟨t, rfl⟩ := hpre
  unfold ComputeMissing
  rw [if_pos ((isPrefixOf_iff_exists R (R ++ t)).mpr ⟨t, rfl⟩)]
  rw [List.drop_left]
  congr 1
  rw [List.filter_append]
  have hdisj : ∀ a ∈ t, a ∉ R := by
    rw [List.nodup_append] at hnd
    intro a hat haR
    exact hnd.2.2 haR hat
  have h1 : R.filter (fun s => !(R.contains s)) = [] := by
    apply List.filter_eq_nil_iff.mpr
    intro a ha
    simp [ha]
  have h2 : t.filter (fun s => !(R.contains s)) = t := by
    apply List.filter_eq_self.mpr
    intro a ha
    simp [hdisj a ha]
  rw [h1, h2, List.nil_append]

/-- Claim C2, witness: on the concrete chains `L = [s1, s2, s3]` and
`R = [s1]` the missing set is the suffix `[s2, s3]`; with `R = []` the
result is all of `L`, and with both chains empty it is empty. -/
theorem C2_witness :
    ComputeMissing ["s1", "s2", "s3"] ["s1"] = Except.ok ["s2", "s3"] ∧
    ComputeMissing ["s1", "s2", "s3"] [] = Except.ok ["s1", "s2", "s3"] ∧
    ComputeMissing [] [] = Except.ok [] := by
  refine ⟨?_, ?_, ?_⟩
  · have h := C2_computeMissing_suffix ["s1", "s2", "s3"] ["s1"]
      (by decide) ⟨["s2", "s3"], rfl⟩
    simpa using h
  · have h := C2_computeMissing_suffix ["s1", "s2", "s3"] []
      (by decide) ⟨["s1", "s2", "s3"], rfl⟩
    simpa using h
  · have h := C2_computeMissing_suffix [] [] (by decide) ⟨[], rfl⟩
    simpa using h

/-- Claim C9: for all chains `L` and `R` where `R` is not a prefix of
`L` (the chains diverged), `ComputeMissing` fails with
`ChainDivergence` instead of returning any missing set. -/
theorem C9_computeMissing_divergence (L R : List String)
    (hdiv : ¬ ∃ t, R ++ t = L) :
    ComputeMissing L R = Except.error GoError.chainDivergence := by
  unfold ComputeMissing
  rw [if_neg]
  intro h
  exact hdiv ((isPrefixOf_iff_exists R L).mp h)

/-- Claim C9, witness: the divergent chains `L = [a]`, `R = [b]` make
`ComputeMissing` fail with `ChainDivergence`. -/
theorem C9_witness :
    ComputeMissing ["a"] ["b"] = Except.error GoError.chainDivergence := by
  apply C9_computeMissing_divergence
  rintro ⟨t, ht⟩
  rw [List.cons_append] at ht
  have : "b" = "a" := (List.cons.injEq _ _ _ _ ▸ ht).1
  exact absurd this (by decide)

/-- No `SendSubvolume` trace event is a `Prepare` event. -/
theorem count_prepare_in_sends (l : List String) :
    (l.map (fun s => Event.driver (DriverOp.sendSubvolume s))).count
      (Event.driver DriverOp.prepare) = 0 := by
  rw [List.count_eq_zero]
  simp

/-- No `SendSubvolume` trace event is a `Snapshot` event. -/
theorem count_snapshot_in_sends (l : List String) :
    (l.map (fun s => Event.driver (DriverOp.sendSubvolume s))).count
      (Event.driver DriverOp.snapshot) = 0 := by
  rw [List.count_eq_zero]
  simp

/-- Every `process` trace starts with the `Prepare` driver call, and
`Prepare` never occurs again later in the trace. -/
theorem process_starts_with_prepare (cfg : Config) (d : Driver) (net : Network) :
    ∃ tail : List Event,
      (process cfg d net).1 = Event.driver DriverOp.prepare :: tail ∧
      Event.driver DriverOp.prepare ∉ tail := by
  unfold process validateConfig
  cases hprep : d.prepareResult with
  | some e => exact ⟨[], by simp⟩
  | none =>
    by_cases hport : cfg.destinationPort > 65535 ∨ cfg.destinationPort < 1024
    · exact ⟨[], by simp [if_pos hport]⟩
    · simp only [if_neg hport]
      by_cases hse : d.subvolumesResult.2.isSome = true ∧ d.subvolumesResult.1 = none
      · obtain ⟨e, he⟩ := Option.isSome_iff_exists.mp hse.1
        exact ⟨[Event.driver DriverOp.subvolumes], by simp [he, hse.2]⟩
      · simp only [if_neg hse]
        cases hsn : d.snapshotResult with
        | some e2 =>
          exact ⟨[Event.driver DriverOp.subvolumes, Event.driver DriverOp.snapshot],
            by simp⟩
        | none =>
          cases hsrv : cfg.server with
          | true =>
            cases hle : net.listenErr with
            | some e =>
              exact ⟨[Event.driver DriverOp.subvolumes, Event.driver DriverOp.snapshot,
                Event.listen serverListenAddr], by simp⟩
            | none =>
              exact ⟨[Event.driver DriverOp.subvolumes, Event.driver DriverOp.snapshot,
                Event.listen serverListenAddr], by simp⟩
          | false =>
            cases hd : net.dialErr with
            | some e =>
              exact ⟨[Event.driver DriverOp.subvolumes, Event.driver DriverOp.snapshot,
                Event.dial (cfg.destinationHost ++ ":" ++ goStringOfInt cfg.destinationPort)],
                by simp⟩
            | none =>
              cases hc : net.callErr with
              | some e =>
                exact ⟨[Event.driver DriverOp.subvolumes, Event.driver DriverOp.snapshot,
                  Event.dial (cfg.destinationHost ++ ":" ++ goStringOfInt cfg.destinationPort),
                  Event.driver DriverOp.subvolumes,
                  Event.rpcCall "BtrfsRPC.SnapshotsNeeded"], by simp⟩
              | none =>
                refine ⟨[Event.driver DriverOp.subvolumes, Event.driver DriverOp.snapshot,
                  Event.dial (cfg.destinationHost ++ ":" ++ goStringOfInt cfg.destinationPort),
                  Event.driver DriverOp.subvolumes,
                  Event.rpcCall "BtrfsRPC.SnapshotsNeeded"] ++
                  (d.subvolumesResult.1.getD []).map
                    (fun s => Event.driver (DriverOp.sendSubvolume s)),
                  by simp, ?_⟩
                simp

/-- Claim C1, counterexample: with port 80 and a driver whose
`Prepare` succeeds, `validateConfig` does return the invalid-port
configuration error, but its trace already contains the `Prepare`
driver call — the claim that no driver call is made before the
failure is false. -/
theorem C1_counterexample :
    DriverOp.prepare ∈ (validateConfig cfg80 drvOK).1 ∧
    (validateConfig cfg80 drvOK).2 = some (GoError.invalidPort 80) := by decide

/-- Claim C1, amended: for every configuration whose destination port
is outside 1024-65535, if `Prepare` succeeds the run fails with the
invalid-port configuration error before any network call and before
any driver call other than `Prepare`, which is invoked first. -/
theorem C1_amended (cfg : Config) (d : Driver) (net : Network)
    (hport : cfg.destinationPort > 65535 ∨ cfg.destinationPort < 1024)
    (hprep : d.prepareResult = none) :
    process cfg d net =
      ([Event.driver DriverOp.prepare],
       ProcResult.normal (some (GoError.invalidPort cfg.destinationPort))) := by
  unfold process validateConfig
  rw [hprep]
  simp only [if_pos hport, List.map_cons, List.map_nil]

/-- Claim C1, witness for the amended statement: port 80, all driver
calls succeeding. -/
theorem C1_witness :
    process cfg80 drvOK netOK =
      ([Event.driver DriverOp.prepare],
       ProcResult.normal (some (GoError.invalidPort 80))) :=
  C1_amended cfg80 drvOK netOK (Or.inr (by decide)) rfl

/-- Claim C3, counterexample evaluation: the client's local chain is
`[snap1]` and the server reports `snap1` present, yet the run sends
`snap1` anyway — the sent set does not equal the local chain minus
the reported-present set (the code discards the RPC reply). -/
theorem C3_code_bug_eval :
    netReplySnap1.reply = ["snap1"] ∧
    sentSubvolumes (process cfgClient4321 drvOK netReplySnap1).1 = ["snap1"] ∧
    sentSubvolumes (process cfgClient4321 drvOK netReplySnap1).1 ≠
      ["snap1"].filter (fun s => !(netReplySnap1.reply.contains s)) := by decide

/-- Claim C4, counterexample: btrfs_backup.go's `realMain` returns
exit status 0 even when `process` returned a non-nil error, so the
claimed equivalence fails there. -/
theorem C4_counterexample :
    ¬ ((Legacy.realMain (some (GoError.msg "process failed")) ≠ 0) ↔
        (some (GoError.msg "process failed") ≠ (none : Option GoError))) := by decide

/-- Claim C4, amended: backup.go's `realMain` returns a nonzero
status exactly when `process` returned a non-nil error, while
btrfs_backup.go's `realMain` always returns 0, merely logging the
error. -/
theorem C4_amended (e : Option GoError) :
    (realMain e ≠ 0 ↔ e ≠ none) ∧ Legacy.realMain e = 0 := by
  cases e <;> simp [realMain, Legacy.realMain]

/-- Claim C5: the configured destination port is not the TCP port
actually used.  With port 4321 the server listens on the hard-coded
address `":1234"`, and the client dials the host joined with Go's
`string(4321)` — the UTF-8 rune with code point 4321, not the decimal
string `"4321"`. -/
theorem C5_port_unused :
    Event.listen ":1234" ∈ (process cfgServer4321 drvOK netOK).1 ∧
    serverListenAddr ≠ ":4321" ∧
    Event.dial ("backup.example:" ++ goStringOfInt 4321) ∈
      (process cfgClient4321 drvOK netOK).1 ∧
    goStringOfInt 4321 ≠ "4321" := by decide

/-- Claim C6, counterexample evaluation: with local chain
`[snap1, snap2, snap3]` and `SendSubvolume` failing on `snap2`, the
client still sends `snap3` and reports overall success — the send
loop discards every per-snapshot result instead of aborting. -/
theorem C6_code_bug_eval :
    drvFailSnap2.sendResult "snap2" = some (GoError.msg "send failed") ∧
    sentSubvolumes (process cfgClient4321 drvFailSnap2 netOK).1 =
      ["snap1", "snap2", "snap3"] ∧
    (process cfgClient4321 drvFailSnap2 netOK).2 = ProcResult.normal none := by decide

/-- Claim C7: in every run, `Prepare` is invoked exactly once and
before any other driver operation, and if `Prepare` returns an error
no other driver operation is invoked in that run. -/
theorem C7_prepare_first_and_once (cfg : Config) (d : Driver) (net : Network) :
    (process cfg d net).1.head? = some (Event.driver DriverOp.prepare) ∧
    (process cfg d net).1.count (Event.driver DriverOp.prepare) = 1 ∧
    (∀ e, d.prepareResult = some e →
      (process cfg d net).1 = [Event.driver DriverOp.prepare]) := by
  obtain ⟨tail, htr, hnot⟩ := process_starts_with_prepare cfg d net
  refine ⟨by rw [htr]; rfl, ?_, ?_⟩
  · rw [htr, List.count_cons_self, List.count_eq_zero.mpr hnot]
  · intro e he
    simp [process, validateConfig, he]

/-- Claim C7, witness: with a driver whose `Prepare` fails, the whole
trace of the run is the single `Prepare` call. -/
theorem C7_witness :
    (process cfgClient4321 drvPrepFail netOK).1 = [Event.driver DriverOp.prepare] :=
  (C7_prepare_first_and_once cfgClient4321 drvPrepFail netOK).2.2
    (GoError.msg "prepare failed") rfl

/-- Claim C8, counterexample: a server-mode run does create a local
snapshot through the driver's snapshot-creation operation — the
validation step runs before the mode branch and always takes one. -/
theorem C8_counterexample :
    cfgServer4321.server = true ∧
    Event.driver DriverOp.snapshot ∈ (process cfgServer4321 drvOK netOK).1 := by decide

/-- Claim C8, amended: the snapshot-creation driver operation is
invoked exactly once per run in every mode — during config
validation, before the server/client branch — so a server-mode run
also creates one local snapshot through the driver. -/
theorem C8_amended (cfg : Config) (d : Driver) (net : Network)
    (hprep : d.prepareResult = none)
    (hport : ¬ (cfg.destinationPort > 65535 ∨ cfg.destinationPort < 1024))
    (hse : ¬ (d.subvolumesResult.2.isSome = true ∧ d.subvolumesResult.1 = none)) :
    (process cfg d net).1.count (Event.driver DriverOp.snapshot) = 1 := by
  unfold process validateConfig
  rw [hprep]
  simp only [if_neg hport, if_neg hse]
  cases hsn : d.snapshotResult with
  | some e2 => simp [List.count_cons, List.count_append]
  | none =>
    cases hsrv : cfg.server with
    | true =>
      cases hle : net.listenErr with
      | some e => simp [List.count_cons, List.count_append]
      | none => simp [List.count_cons, List.count_append]
    | false =>
      cases hd : net.dialErr with
      | some e => simp [List.count_cons, List.count_append]
      | none =>
        cases hc : net.callErr with
        | some e => simp [List.count_cons, List.count_append]
        | none => simp [List.count_cons, List.count_append, count_snapshot_in_sends]

/-- Claim C8, witness for the amended statement: a fully successful
server-mode run contains exactly one snapshot-creation call. -/
theorem C8_witness :
    (process cfgServer4321 drvOK netOK).1.count (Event.driver DriverOp.snapshot) = 1 :=
  C8_amended cfgServer4321 drvOK netOK rfl (by decide) (by decide)

/-- Claim C10: `validateConfig` suppresses an error from the
subvolume-enumeration driver call whenever the returned list is
non-nil — validation proceeds to the snapshot step and its outcome is
the snapshot call's result — and propagates the enumeration error
exactly when the returned list is nil. -/
theorem C10_enum_error_suppressed (cfg : Config) (d : Driver)
    (hport : ¬ (cfg.destinationPort > 65535 ∨ cfg.destinationPort < 1024))
    (hprep : d.prepareResult = none) :
    (∀ subs e, d.subvolumesResult = (some subs, some e) →
      (validateConfig cfg d).1 =
        [DriverOp.prepare, DriverOp.subvolumes, DriverOp.snapshot] ∧
      (validateConfig cfg d).2 = d.snapshotResult) ∧
    (∀ e, d.subvolumesResult = (none, some e) →
      (validateConfig cfg d).1 = [DriverOp.prepare, DriverOp.subvolumes] ∧
      (validateConfig cfg d).2 = some e) := by
  constructor
  · intro subs e hsv
    unfold validateConfig
    rw [hprep]
    simp only [if_neg hport, hsv]
    cases hsn : d.snapshotResult <;> simp [hsn]
  · intro e hsv
    unfold validateConfig
    rw [hprep]
    simp only [if_neg hport, hsv]
    simp

/-- Claim C10, witness: an enumeration that fails but returns the
partial list `[snap1]` does not abort validation — the run proceeds
to the snapshot step and validation succeeds. -/
theorem C10_witness :
    (validateConfig cfgClient4321 drvPartialEnum).1 =
      [DriverOp.prepare, DriverOp.subvolumes, DriverOp.snapshot] ∧
    (validateConfig cfgClient4321 drvPartialEnum).2 = none := by
  have h := (C10_enum_error_suppressed cfgClient4321 drvPartialEnum
    (by decide) rfl).1 ["snap1"] (GoError.msg "enumeration failed") rfl
  simpa using h

end BtrfsBackup
